import Mathlib

/-!
Verification development for the alumni-outreach repository.

The definitions below are a shallow embedding of the program's core:
the record store and persistence helpers of `utils.py`
(`lookup_alum`, `record_result`, `load_records`, `write_json_atomic`)
and the card/page loop of `main.py`.

Modelling conventions:
* Timestamps: the source stamps records with
  `datetime.now(ZoneInfo("America/New_York")).strftime("%m-%d-%Y %H:%M:%S")`.
  We abstract a wall-clock reading as a `Nat` (a point on the clock's
  timeline); every place the source calls the clock, the embedding takes
  the reading as an explicit argument.
* JSON record values: an entry of the persisted store is either a JSON
  object with primitive fields (the only shape the program ever writes)
  or some non-object JSON value (possible in a hand-edited/corrupt file);
  `RecVal.rnonobj` collapses the latter, since the source only ever asks
  `isinstance(existing, dict)` about it.
* The browser/UI surface is abstracted as an environment: each result
  card carries the observable outcome of every UI interaction the loop
  performs on it (`CardEnv`), and the session is a pure function of the
  page/card environment.
-/

/-- Outcome status of one candidate, from the `AlumniProfile` dataclass:
sent (successfully sent), viewed (couldn't send), skipped (sent before). -/
inductive Status
  | sent
  | viewed
  | skipped
deriving DecidableEq

/-- The string stored in the `status` field for each `Status`. -/
def statusString : Status → String
  | .sent => "sent"
  | .viewed => "viewed"
  | .skipped => "skipped"

/-- A primitive JSON field value: an integer-like value or a string.
Timestamp strings are abstracted as clock readings (`pnum`). -/
inductive Prim
  | pnum (n : Nat)
  | pstr (s : String)
deriving DecidableEq

/-- A value stored under one uid key in the records dictionary: a JSON
object with primitive fields, or any non-object JSON value. -/
inductive RecVal
  | robj (fs : List (String × Prim))
  | rnonobj
deriving DecidableEq

/-- The `AlumniProfile` dataclass of `utils.py`. -/
structure AlumniProfile where
  name : String
  url : String
  uid : Nat
  status : Status
  created_at : Nat
  updated_at : Nat
deriving DecidableEq

/-- The in-memory records dictionary `Dict[int, Dict[str, Any]]`,
keyed by uid, as an association list with dict update semantics. -/
abbrev RecordStore : Type := List (Nat × RecVal)

/-- Dictionary read on the uid-keyed store (`records[uid]` / `records.get(uid)`). -/
def storeLookup (rs : RecordStore) (k : Nat) : Option RecVal :=
  match rs with
  | [] => none
  | (k', v) :: rest => if k' = k then some v else storeLookup rest k

/-- Dictionary write `records[uid] = v`: replace in place, else append. -/
def storeInsert (rs : RecordStore) (k : Nat) (v : RecVal) : RecordStore :=
  match rs with
  | [] => [(k, v)]
  | (k', v') :: rest =>
    if k' = k then (k, v) :: rest else (k', v') :: storeInsert rest k v

/-- Field read on a JSON object (`d.get(key)` / `d[key]`). -/
def flookup (fs : List (String × Prim)) (k : String) : Option Prim :=
  match fs with
  | [] => none
  | (k', v) :: rest => if k' = k then some v else flookup rest k

/-- `lookup_alum` of `utils.py`: membership of `alum.uid` in the records
dictionary (the `try records[alum.uid] / except KeyError` probe). -/
def lookup_alum (records : RecordStore) (uid : Nat) : Bool :=
  (storeLookup records uid).isSome

/-- The shape of every record `record_result` writes: the `new_rec`
dict literal of `utils.py` lines 198-205. -/
def stdRec (uid : Nat) (name url : String) (status : Status)
    (created : Prim) (updated : Nat) : RecVal :=
  RecVal.robj
    [ ("uid", Prim.pnum uid),
      ("name", Prim.pstr name),
      ("url", Prim.pstr url),
      ("status", Prim.pstr (statusString status)),
      ("created_at", created),
      ("updated_at", Prim.pnum updated) ]

/-- `record_result` of `utils.py`: build the plain-dict record for `alum`,
carrying forward `created_at` from an existing dict entry when present,
stamping `updated_at` with the current clock reading `now`, and store it
under `alum.uid`.  Returns the updated store and the new record. -/
def record_result (records : RecordStore) (alum : AlumniProfile) (now : Nat) :
    RecordStore × RecVal :=
  let existing := storeLookup records alum.uid
  let createdAt :=
    match existing with
    | some (RecVal.robj fs) =>
      match flookup fs "created_at" with
      | some v => v
      | none => Prim.pnum alum.created_at
    | _ => Prim.pnum alum.created_at
  let newRec := stdRec alum.uid alum.name alum.url alum.status createdAt now
  (storeInsert records alum.uid newRec, newRec)

/-- The character for a decimal digit, as in Python's `str(int)`. -/
def digitChar (d : Nat) : Char := Char.ofNat (48 + d)

/-- Little-endian decimal digits of `n`, with explicit fuel (`fuel ≥ n`
suffices) so the definition is structurally recursive and computes. -/
def natDigitsAux : Nat → Nat → List Nat
  | _, 0 => []
  | 0, _ + 1 => []
  | fuel + 1, n + 1 => ((n + 1) % 10) :: natDigitsAux fuel ((n + 1) / 10)

/-- Python `str(n)` for a non-negative integer: its decimal digit string. -/
def natToDecimal (n : Nat) : String :=
  if n = 0 then "0" else ⟨((natDigitsAux n n).reverse.map digitChar)⟩

/-- The numeric value of a decimal digit character, `none` otherwise. -/
def digOfChar (c : Char) : Option Nat :=
  if 48 ≤ c.toNat ∧ c.toNat ≤ 57 then some (c.toNat - 48) else none

/-- Accumulating left-to-right decimal parse of a character list. -/
def parseDigitsGo (acc : Nat) : List Char → Option Nat
  | [] => some acc
  | c :: cs =>
    match digOfChar c with
    | some d => parseDigitsGo (10 * acc + d) cs
    | none => none

/-- Python `int(s)` on the decimal key strings this program produces and
consumes: all-digit strings parse to their value, anything else raises
(`none`). -/
def decimalToNat (s : String) : Option Nat :=
  if s.data = [] then none else parseDigitsGo 0 s.data

/-- What `load_records` finds at its path: no file, a file `json.load`
cannot parse, or a parsed JSON document (a dict of record values keyed
by strings, or some non-dict top level). -/
inductive Source
  | missing
  | unparseable
  | parsedNonDict
  | parsedDict (entries : List (String × RecVal))
deriving DecidableEq

/-- The key conversion `{int(k): v for k, v in data.items()}`: every key
must parse as an integer, otherwise the comprehension raises `ValueError`
(`none`). -/
def keysToNat : List (String × RecVal) → Option RecordStore
  | [] => some []
  | (k, v) :: rest =>
    match decimalToNat k with
    | some n =>
      match keysToNat rest with
      | some rs => some ((n, v) :: rs)
      | none => none
    | none => none

/-- `load_records` of `utils.py`: empty store when the path does not
exist; parse the file and convert string keys back to int keys; on a
parse failure, a non-dict top level, or a non-integer key, return the
empty store instead of raising. -/
def load_records : Source → RecordStore
  | .missing => []
  | .unparseable => []
  | .parsedNonDict => []
  | .parsedDict entries =>
    match keysToNat entries with
    | some rs => rs
    | none => []

/-- `write_json_atomic` of `utils.py` as observed by a later reader: the
destination file holds the JSON dump of the records dictionary, whose
int keys `json.dump` renders as decimal strings. -/
def write_json_atomic (records : RecordStore) : Source :=
  Source.parsedDict (records.map (fun kv => (natToDecimal kv.1, kv.2)))

/-- The report `main.py` prints right after loading the store
(line 99): the only signal the caller emits about the load. -/
def loadReport (src : Source) : String :=
  "Loaded " ++ toString (load_records src).length ++ " existing alumni records."

/-- Python `s.split(sep)` for a one-character separator, on the
character list: split at every separator, keeping empty pieces. -/
def splitChar (sep : Char) : List Char → List (List Char)
  | [] => [[]]
  | c :: cs =>
    match splitChar sep cs with
    | [] => if c = sep then [[], []] else [[c]]
    | g :: gs => if c = sep then [] :: g :: gs else (c :: g) :: gs

/-- Python `url.split("/")`. -/
def pySplit (s : String) (sep : Char) : List String :=
  (splitChar sep s.data).map (fun l => ⟨l⟩)

/-- `int(profile_url.split("/")[4])` of `main.py` line 272: take the
fifth `/`-separated component of the href and parse it as an integer;
`none` models the uncaught `IndexError`/`ValueError`. -/
def parseUid (url : String) : Option Nat :=
  match (pySplit url '/').get? 4 with
  | some seg => decimalToNat seg
  | none => none

/-- Observable outcome of one `send_from_modal` call, as the card loop
distinguishes them: a completed send with the modal closed again; a
`RuntimeError` whose message contains "daily email limit"; some other
`RuntimeError`; or a timeout fault (an element — in particular the
modal's close control — never became available). -/
inductive ModalOutcome
  | ok
  | rtDaily
  | rtOther
  | tmo
deriving DecidableEq

/-- The environment's behaviour for one result card: the card's visible
name and href, the clock readings taken while handling it, and the
outcome of each UI interaction the loop may perform on it. -/
structure CardEnv where
  name : String
  url : String
  /-- clock reading for `creation_time` (main.py line 275) -/
  ctime : Nat
  /-- clock reading for `record_result`'s `updated_at` stamp -/
  rtime : Nat
  /-- the quicksend anchor is present on the card -/
  quickPresent : Bool
  /-- outcome of `send_from_modal` on the quick path -/
  quickSend : ModalOutcome
  /-- the profile link is clickable and navigation succeeds -/
  profileAccessible : Bool
  /-- contact section, email subsection and first address are all found -/
  contactOk : Bool
  /-- outcome of `send_from_modal` on the profile path -/
  profileSend : ModalOutcome
deriving DecidableEq

/-- Mutable state of the card loop: the records dictionary, the
`run_data["results"]` dictionary, and the `emails_sent` counter. -/
structure LoopState where
  records : RecordStore
  results : List (Nat × RecVal)
  emailsSent : Nat
deriving DecidableEq

/-- How handling one card ends: fall through to the next card, break
with `keep_alive = False` (daily limit), or propagate an uncaught
exception to the run-level handler. -/
inductive CardExit
  | nextCard
  | dailyBreak
  | fatalErr
deriving DecidableEq

/-- The `finally` block of the card loop (main.py lines 382-397) when
`keep_alive` is still true: `record_result` into the records dictionary
and mirror the returned fields into `run_data["results"][uid]`. -/
def recordInto (st : LoopState) (alum : AlumniProfile) (now : Nat) : LoopState :=
  let res := record_result st.records alum now
  { st with records := res.1, results := storeInsert st.results alum.uid res.2 }

/-- One iteration of the card loop of `main.py` (lines 262-397), after
the budget guard has passed.  Mirrors, in order: uid extraction (fatal
when unparseable), dedup lookup (skip), the quicksend attempt with its
`RuntimeError` / `NoSuchElementException` handlers, the profile-path
fallback with its two local `try` blocks, and the `finally` block that
records the outcome whenever `keep_alive` is still true. -/
def processCard (st : LoopState) (c : CardEnv) : LoopState × CardExit :=
  match parseUid c.url with
  | none => (st, CardExit.fatalErr)
  | some uid =>
    let alum : AlumniProfile :=
      { name := c.name, url := c.url, uid := uid, status := Status.viewed,
        created_at := c.ctime, updated_at := c.ctime }
    if lookup_alum st.records uid then
      (recordInto st { alum with status := Status.skipped } c.rtime, CardExit.nextCard)
    else if c.quickPresent then
      match c.quickSend with
      | ModalOutcome.ok =>
        (recordInto { st with emailsSent := st.emailsSent + 1 }
          { alum with status := Status.sent } c.rtime, CardExit.nextCard)
      | ModalOutcome.rtDaily => (st, CardExit.dailyBreak)
      | ModalOutcome.rtOther => (recordInto st alum c.rtime, CardExit.nextCard)
      | ModalOutcome.tmo => (recordInto st alum c.rtime, CardExit.fatalErr)
    else if !c.profileAccessible then
      (recordInto st alum c.rtime, CardExit.nextCard)
    else if !c.contactOk then
      (recordInto st alum c.rtime, CardExit.nextCard)
    else
      match c.profileSend with
      | ModalOutcome.ok =>
        (recordInto { st with emailsSent := st.emailsSent + 1 }
          { alum with status := Status.sent } c.rtime, CardExit.nextCard)
      | ModalOutcome.rtDaily => (st, CardExit.dailyBreak)
      | ModalOutcome.rtOther =>
        (recordInto { st with emailsSent := st.emailsSent + 1 }
          { alum with status := Status.sent } c.rtime, CardExit.nextCard)
      | ModalOutcome.tmo => (recordInto st alum c.rtime, CardExit.nextCard)

/-- The inner `for` over one page's cards (main.py lines 255-397).
Returns the state, the `keep_alive` flag, and whether an uncaught
exception escaped to the run-level handler.  The budget guard is
checked before every card. -/
def processCards (maxEmails : Nat) (st : LoopState) :
    List CardEnv → LoopState × Bool × Bool
  | [] => (st, true, false)
  | c :: cs =>
    if maxEmails ≤ st.emailsSent then (st, false, false)
    else
      match processCard st c with
      | (st', CardExit.nextCard) => processCards maxEmails st' cs
      | (st', CardExit.dailyBreak) => (st', false, false)
      | (st', CardExit.fatalErr) => (st', true, true)

/-- Outcome of the whole `while keep_alive` traversal: the final loop
state and whether the run-level `except Exception` handler fired. -/
structure SessionResult where
  final : LoopState
  aborted : Bool
deriving DecidableEq

/-- The outer `while keep_alive` page loop (main.py lines 243-416): run
the card loop on the current page; stop on an uncaught exception, on
`keep_alive = False`, or on the post-page budget check; otherwise follow
the next-page link, and when no further page exists the next-link wait
times out ("Results exhausted"). -/
def runPages (maxEmails : Nat) (st : LoopState) :
    List (List CardEnv) → SessionResult
  | [] => { final := st, aborted := false }
  | p :: ps =>
    match processCards maxEmails st p with
    | (st', _, true) => { final := st', aborted := true }
    | (st', false, false) => { final := st', aborted := false }
    | (st', true, false) =>
      if maxEmails ≤ st'.emailsSent then { final := st', aborted := false }
      else runPages maxEmails st' ps

/-- A full session from `main.py`: start from the loaded records, an
empty `run_data["results"]` and zero emails sent, and traverse the
pages the environment serves. -/
def runSession (maxEmails : Nat) (records0 : RecordStore)
    (pages : List (List CardEnv)) : SessionResult :=
  runPages maxEmails { records := records0, results := [], emailsSent := 0 } pages

/-- The `status` field of a stored record value, when it is an object. -/
def statusOf (v : RecVal) : Option Prim :=
  match v with
  | RecVal.robj fs => flookup fs "status"
  | RecVal.rnonobj => none

/-- The `created_at` field of a stored record value, when it is an object. -/
def createdOf (v : RecVal) : Option Prim :=
  match v with
  | RecVal.robj fs => flookup fs "created_at"
  | RecVal.rnonobj => none

/-- The `updated_at` field of a stored record value, when it is an object. -/
def updatedOf (v : RecVal) : Option Prim :=
  match v with
  | RecVal.robj fs => flookup fs "updated_at"
  | RecVal.rnonobj => none

/-- Occurrences of status string `s` among the values of a results
dictionary (the `Counter` in `main.py`'s finalize, lines 434-439). -/
def countStatus (s : String) : List (Nat × RecVal) → Nat
  | [] => 0
  | kv :: rest =>
    (if statusOf kv.2 = some (Prim.pstr s) then 1 else 0) + countStatus s rest

/-- The finalized `run_data["counts"]` triple (main.py lines 442-446). -/
structure RunCounts where
  sent : Nat
  viewed : Nat
  skipped : Nat
deriving DecidableEq

/-- Compute the status counts from the run's results dictionary. -/
def finalizeCounts (results : List (Nat × RecVal)) : RunCounts :=
  { sent := countStatus "sent" results,
    viewed := countStatus "viewed" results,
    skipped := countStatus "skipped" results }

/-- A result card whose quicksend control is present; the profile path
behind it would also deliver.  `o` is the quick-path modal outcome. -/
def sampleQuickCard (uid : Nat) (o : ModalOutcome) : CardEnv :=
  { name := "Jane Q Doe",
    url := "https://alumni.example.edu/person/" ++ natToDecimal uid,
    ctime := 100 + uid, rtime := 200 + uid,
    quickPresent := true, quickSend := o,
    profileAccessible := true, contactOk := true,
    profileSend := ModalOutcome.ok }

/-- A result card without a quicksend control, taking the profile path:
`acc` is whether the profile opens, `contact` whether an address is
found, `o` the profile-path modal outcome. -/
def sampleProfileCard (uid : Nat) (acc contact : Bool) (o : ModalOutcome) : CardEnv :=
  { name := "John R Roe",
    url := "https://alumni.example.edu/person/" ++ natToDecimal uid,
    ctime := 100 + uid, rtime := 200 + uid,
    quickPresent := false, quickSend := ModalOutcome.ok,
    profileAccessible := acc, contactOk := contact,
    profileSend := o }

/-- A result card whose href has no parseable trailing identity
segment, so `int(profile_url.split("/")[4])` raises. -/
def badUrlCard : CardEnv :=
  { name := "No Body",
    url := "https://alumni.example.edu/directory",
    ctime := 100, rtime := 200,
    quickPresent := true, quickSend := ModalOutcome.ok,
    profileAccessible := true, contactOk := true,
    profileSend := ModalOutcome.ok }

/-- A store as a previous run leaves it: uid 7 was contacted before,
recorded with status "sent" and a `created_at` stamp. -/
def sampleStore : RecordStore :=
  [ (7, RecVal.robj
      [ ("uid", Prim.pnum 7),
        ("name", Prim.pstr "Jane Q Doe"),
        ("url", Prim.pstr "https://alumni.example.edu/person/7"),
        ("status", Prim.pstr "sent"),
        ("created_at", Prim.pnum 11),
        ("updated_at", Prim.pnum 11) ]) ]

/-- Invariant vocabulary for the dedup claims: the store's entry for a
session-start identity is either untouched or has been rewritten as a
"skipped" record that keeps the original `created_at`. -/
def dedupStoreInv (uid : Nat) (fs0 : List (String × Prim)) (c0 : Prim)
    (recs : RecordStore) : Prop :=
  ∃ fs, storeLookup recs uid = some (RecVal.robj fs) ∧
    flookup fs "created_at" = some c0 ∧
    (fs = fs0 ∨ flookup fs "status" = some (Prim.pstr "skipped"))

/-- Invariant vocabulary for the dedup claims: any run-results entry for
a session-start identity is a "skipped" record keeping the original
`created_at`. -/
def dedupResultsInv (uid : Nat) (c0 : Prim) (res : List (Nat × RecVal)) : Prop :=
  ∀ v, storeLookup res uid = some v →
    statusOf v = some (Prim.pstr "skipped") ∧ createdOf v = some c0


theorem storeLookup_insert_self (rs : RecordStore) (k : Nat) (v : RecVal) :
    storeLookup (storeInsert rs k v) k = some v := by
  induction rs with
  | nil => simp [storeInsert, storeLookup]
  | cons kv rest ih =>
    obtain ⟨k', v'⟩ := kv
    by_cases h : k' = k
    · simp [storeInsert, storeLookup, h]
    · simp [storeInsert, storeLookup, h, ih]

theorem storeLookup_insert_ne (rs : RecordStore) (k u : Nat) (v : RecVal)
    (h : k ≠ u) : storeLookup (storeInsert rs k v) u = storeLookup rs u := by
  induction rs with
  | nil => simp [storeInsert, storeLookup, h]
  | cons kv rest ih =>
    obtain ⟨k', v'⟩ := kv
    by_cases hk : k' = k
    · subst hk
      simp [storeInsert, storeLookup, h, ih]
    · simp [storeInsert, storeLookup, hk, ih]

theorem countStatus_insert_le (s : String) (rs : List (Nat × RecVal))
    (k : Nat) (v : RecVal) :
    countStatus s (storeInsert rs k v) ≤
      countStatus s rs + (if statusOf v = some (Prim.pstr s) then 1 else 0) := by
  induction rs with
  | nil =>
    simp only [storeInsert, countStatus]
    omega
  | cons kv rest ih =>
    obtain ⟨k', v'⟩ := kv
    by_cases hk : k' = k
    · simp only [storeInsert, hk, if_pos rfl, countStatus]
      omega
    · simp only [storeInsert, if_neg hk, countStatus]
      omega

theorem digOfChar_digitChar (d : Nat) (h : d < 10) :
    digOfChar (digitChar d) = some d := by
  interval_cases d <;> decide

theorem parseDigitsGo_append (l1 l2 : List Char) (acc : Nat) :
    parseDigitsGo acc (l1 ++ l2) =
      (parseDigitsGo acc l1).bind (fun a => parseDigitsGo a l2) := by
  induction l1 generalizing acc with
  | nil => simp [parseDigitsGo]
  | cons c cs ih =>
    cases hd : digOfChar c <;> simp [parseDigitsGo, hd, ih]

theorem parseDigitsGo_rev_digits (ds : List Nat) (h : ∀ d ∈ ds, d < 10) :
    ∀ acc : Nat, parseDigitsGo acc (ds.reverse.map digitChar) =
      some (acc * 10 ^ ds.length + Nat.ofDigits 10 ds) := by
  induction ds with
  | nil => intro acc; simp [parseDigitsGo, Nat.ofDigits]
  | cons d ds ih =>
    intro acc
    have hd : d < 10 := h d (List.mem_cons_self d ds)
    have hds : ∀ x ∈ ds, x < 10 := fun x hx => h x (List.mem_cons_of_mem d hx)
    rw [List.reverse_cons, List.map_append, parseDigitsGo_append, ih hds acc]
    simp only [Option.some_bind, List.map_cons, List.map_nil, parseDigitsGo,
      digOfChar_digitChar d hd, Nat.ofDigits_cons, List.length_cons]
    congr 1
    ring

theorem natDigitsAux_eq_digits (fuel : Nat) :
    ∀ n, n ≤ fuel → natDigitsAux fuel n = Nat.digits 10 n := by
  induction fuel with
  | zero =>
    intro n hn
    interval_cases n
    simp [natDigitsAux, Nat.digits_zero]
  | succ fuel ih =>
    intro n hn
    match n with
    | 0 => simp [natDigitsAux, Nat.digits_zero]
    | m + 1 =>
      have hdiv : (m + 1) / 10 ≤ fuel := by
        have := Nat.div_lt_self (Nat.succ_pos m) (by norm_num : 1 < 10)
        omega
      rw [show natDigitsAux (fuel + 1) (m + 1)
            = ((m + 1) % 10) :: natDigitsAux fuel ((m + 1) / 10) from rfl,
        ih ((m + 1) / 10) hdiv,
        Nat.digits_def' (by norm_num : 1 < 10) (Nat.succ_pos m)]

theorem decimal_roundtrip (n : Nat) : decimalToNat (natToDecimal n) = some n := by
  by_cases h0 : n = 0
  · subst h0; decide
  · have hne : Nat.digits 10 n ≠ [] := Nat.digits_ne_nil_iff_ne_zero.mpr h0
    have hdata : (natToDecimal n).data = (Nat.digits 10 n).reverse.map digitChar := by
      simp [natToDecimal, h0, natDigitsAux_eq_digits n n (le_refl n)]
    have hnil : (natToDecimal n).data ≠ [] := by
      rw [hdata]
      simp only [ne_eq, List.map_eq_nil_iff, List.reverse_eq_nil_iff]
      exact hne
    have hlt : ∀ d ∈ Nat.digits 10 n, d < 10 :=
      fun d hd => Nat.digits_lt_base (by norm_num) hd
    rw [decimalToNat, if_neg hnil, hdata,
      parseDigitsGo_rev_digits (Nat.digits 10 n) hlt 0]
    simp [Nat.ofDigits_digits]

theorem keysToNat_dump (rs : RecordStore) :
    keysToNat (rs.map (fun kv => (natToDecimal kv.1, kv.2))) = some rs := by
  induction rs with
  | nil => rfl
  | cons kv rest ih =>
    obtain ⟨k, v⟩ := kv
    simp [keysToNat, decimal_roundtrip, ih]

theorem load_after_flush (rs : RecordStore) :
    load_records (write_json_atomic rs) = rs := by
  simp [load_records, write_json_atomic, keysToNat_dump]

theorem statusOf_stdRec (uid : Nat) (name url : String) (st : Status)
    (c : Prim) (u : Nat) :
    statusOf (stdRec uid name url st c u) = some (Prim.pstr (statusString st)) := rfl

theorem createdOf_stdRec (uid : Nat) (name url : String) (st : Status)
    (c : Prim) (u : Nat) :
    createdOf (stdRec uid name url st c u) = some c := rfl

theorem updatedOf_stdRec (uid : Nat) (name url : String) (st : Status)
    (c : Prim) (u : Nat) :
    updatedOf (stdRec uid name url st c u) = some (Prim.pnum u) := rfl

theorem statusOf_record_result (records : RecordStore) (alum : AlumniProfile)
    (now : Nat) :
    statusOf (record_result records alum now).2 =
      some (Prim.pstr (statusString alum.status)) := rfl

theorem record_result_fst (records : RecordStore) (alum : AlumniProfile)
    (now : Nat) :
    (record_result records alum now).1 =
      storeInsert records alum.uid (record_result records alum now).2 := rfl

theorem record_result_of_none (records : RecordStore) (alum : AlumniProfile)
    (now : Nat) (h : storeLookup records alum.uid = none) :
    record_result records alum now =
      (storeInsert records alum.uid
        (stdRec alum.uid alum.name alum.url alum.status
          (Prim.pnum alum.created_at) now),
       stdRec alum.uid alum.name alum.url alum.status
         (Prim.pnum alum.created_at) now) := by
  simp [record_result, h]

theorem record_result_of_robj (records : RecordStore) (alum : AlumniProfile)
    (now : Nat) (fs : List (String × Prim)) (c : Prim)
    (h : storeLookup records alum.uid = some (RecVal.robj fs))
    (hc : flookup fs "created_at" = some c) :
    record_result records alum now =
      (storeInsert records alum.uid
        (stdRec alum.uid alum.name alum.url alum.status c now),
       stdRec alum.uid alum.name alum.url alum.status c now) := by
  simp [record_result, h, hc]

theorem keysToNat_bad_key (entries : List (String × RecVal)) (k : String)
    (v : RecVal) (hmem : (k, v) ∈ entries) (hbad : decimalToNat k = none) :
    keysToNat entries = none := by
  induction entries with
  | nil => cases hmem
  | cons kv rest ih =>
    rcases List.mem_cons.mp hmem with h | h
    · rw [← h]
      simp [keysToNat, hbad]
    · obtain ⟨k', v'⟩ := kv
      cases hk : decimalToNat k' <;> simp [keysToNat, hk, ih h]

/-- C8: flushing a RecordStore and loading from the written destination
recovers every original record — in particular its uid key and its
`uid`, `name`, `status`, `created_at`, `updated_at` fields — unchanged
under the same key; in fact the loaded store equals the flushed one. -/
theorem c8_flush_load_roundtrip (store : RecordStore) (uid : Nat) (rec : RecVal)
    (h : storeLookup store uid = some rec) :
    storeLookup (load_records (write_json_atomic store)) uid = some rec ∧
    load_records (write_json_atomic store) = store := by
  rw [load_after_flush]
  exact ⟨h, rfl⟩

/-- Witness for `c8_flush_load_roundtrip` at a concrete one-record store. -/
theorem c8_flush_load_roundtrip_witness :
    storeLookup (load_records (write_json_atomic sampleStore)) 7 =
      some (RecVal.robj
        [ ("uid", Prim.pnum 7),
          ("name", Prim.pstr "Jane Q Doe"),
          ("url", Prim.pstr "https://alumni.example.edu/person/7"),
          ("status", Prim.pstr "sent"),
          ("created_at", Prim.pnum 11),
          ("updated_at", Prim.pnum 11) ]) ∧
    load_records (write_json_atomic sampleStore) = sampleStore :=
  c8_flush_load_roundtrip sampleStore 7
    (RecVal.robj
      [ ("uid", Prim.pnum 7),
        ("name", Prim.pstr "Jane Q Doe"),
        ("url", Prim.pstr "https://alumni.example.edu/person/7"),
        ("status", Prim.pstr "sent"),
        ("created_at", Prim.pnum 11),
        ("updated_at", Prim.pnum 11) ])
    (by decide)

/-- C9 (counterexample to the warning clause): the caller-visible output
after loading a corrupt source — whether unparseable or a dict with a
non-integer key — is literally the same message the caller emits for a
missing source and a fresh empty store, so the fallback is not surfaced
as a warning. -/
theorem c9_warning_counterexample :
    loadReport (Source.parsedDict [("alpha", RecVal.rnonobj)]) =
      loadReport Source.missing ∧
    loadReport Source.unparseable = loadReport Source.missing ∧
    load_records (Source.parsedDict [("alpha", RecVal.rnonobj)]) = [] := by
  decide

/-- C9 (amended): load of a missing source returns the empty store, and
load of a corrupt source (unparseable contents, a non-object top level,
or a non-integer-parseable key) returns the empty store rather than
raising; but no warning is surfaced — the caller's only signal is the
generic loaded-count message, identical to that of a missing source. -/
theorem c9_load_fails_closed :
    load_records Source.missing = [] ∧
    load_records Source.unparseable = [] ∧
    load_records Source.parsedNonDict = [] ∧
    (∀ entries (k : String) (v : RecVal), (k, v) ∈ entries →
      decimalToNat k = none → load_records (Source.parsedDict entries) = []) ∧
    (∀ src, load_records src = [] → loadReport src = loadReport Source.missing) := by
  refine ⟨rfl, rfl, rfl, ?_, ?_⟩
  · intro entries k v hmem hbad
    simp [load_records, keysToNat_bad_key entries k v hmem hbad]
  · intro src h
    simp only [loadReport, h]
    rfl

/-- Witness for `c9_load_fails_closed` at concrete corrupt sources. -/
theorem c9_load_fails_closed_witness :
    load_records (Source.parsedDict [("alpha", RecVal.rnonobj)]) = [] ∧
    loadReport Source.unparseable = loadReport Source.missing :=
  ⟨c9_load_fails_closed.2.2.2.1 [("alpha", RecVal.rnonobj)] "alpha" RecVal.rnonobj
      (by decide) (by decide),
   c9_load_fails_closed.2.2.2.2 Source.unparseable rfl⟩

/-- C3 (counterexample): with an empty store, budget 2 and one page of
three deliverable quick-channel candidates, the finalized counts are not
sent=2, viewed=0, skipped=1 — the third candidate is never recorded. -/
theorem c3_counterexample :
    finalizeCounts (runSession 2 [] [[sampleQuickCard 1 ModalOutcome.ok,
        sampleQuickCard 2 ModalOutcome.ok,
        sampleQuickCard 3 ModalOutcome.ok]]).final.results ≠
      { sent := 2, viewed := 0, skipped := 1 } := by
  decide

/-- C3 (amended): in that scenario exactly two candidates are recorded
"sent"; the third is cut off by the budget guard before being parsed, so
it receives no record at all, and the finalized counts are sent=2,
viewed=0, skipped=0. -/
theorem c3_budget_scenario :
    finalizeCounts (runSession 2 [] [[sampleQuickCard 1 ModalOutcome.ok,
        sampleQuickCard 2 ModalOutcome.ok,
        sampleQuickCard 3 ModalOutcome.ok]]).final.results =
      { sent := 2, viewed := 0, skipped := 0 } ∧
    (runSession 2 [] [[sampleQuickCard 1 ModalOutcome.ok,
        sampleQuickCard 2 ModalOutcome.ok,
        sampleQuickCard 3 ModalOutcome.ok]]).final.emailsSent = 2 ∧
    storeLookup (runSession 2 [] [[sampleQuickCard 1 ModalOutcome.ok,
        sampleQuickCard 2 ModalOutcome.ok,
        sampleQuickCard 3 ModalOutcome.ok]]).final.results 3 = none ∧
    (runSession 2 [] [[sampleQuickCard 1 ModalOutcome.ok,
        sampleQuickCard 2 ModalOutcome.ok,
        sampleQuickCard 3 ModalOutcome.ok]]).aborted = false := by
  decide

/-- C4 (amended): a row whose profile reference has no parseable
trailing identity segment raises out of the card loop: the row receives
no record, the run-level handler fires, and no later row of the session
is processed — the failure is not contained to the row. -/
theorem c4_malformed_identity_aborts (maxEmails : Nat) (st : LoopState)
    (c : CardEnv) (rest : List CardEnv) (more : List (List CardEnv))
    (hbudget : st.emailsSent < maxEmails) (hbad : parseUid c.url = none) :
    processCard st c = (st, CardExit.fatalErr) ∧
    runPages maxEmails st ((c :: rest) :: more) =
      { final := st, aborted := true } := by
  have h1 : processCard st c = (st, CardExit.fatalErr) := by
    simp [processCard, hbad]
  have h2 : ¬ maxEmails ≤ st.emailsSent := by omega
  refine ⟨h1, ?_⟩
  simp [runPages, processCards, h2, h1]

/-- Witness for `c4_malformed_identity_aborts` at a concrete malformed row. -/
theorem c4_malformed_identity_aborts_witness :
    processCard { records := [], results := [], emailsSent := 0 } badUrlCard =
      ({ records := [], results := [], emailsSent := 0 }, CardExit.fatalErr) ∧
    runPages 5 { records := [], results := [], emailsSent := 0 } [[badUrlCard]] =
      { final := { records := [], results := [], emailsSent := 0 },
        aborted := true } :=
  c4_malformed_identity_aborts 5
    { records := [], results := [], emailsSent := 0 } badUrlCard [] []
    (by decide) (by decide)

/-- C4 (counterexample): a malformed row aborts the run — it is not
counted as "skipped" and the following deliverable row is never
processed, against the claim that the failure is contained per-row. -/
theorem c4_counterexample :
    (runSession 5 [] [[badUrlCard, sampleQuickCard 2 ModalOutcome.ok]]).aborted
      = true ∧
    (runSession 5 [] [[badUrlCard, sampleQuickCard 2 ModalOutcome.ok]]).final.results
      = [] ∧
    finalizeCounts (runSession 5 []
        [[badUrlCard, sampleQuickCard 2 ModalOutcome.ok]]).final.results =
      { sent := 0, viewed := 0, skipped := 0 } := by
  decide

theorem recordInto_emailsSent (st : LoopState) (alum : AlumniProfile) (t : Nat) :
    (recordInto st alum t).emailsSent = st.emailsSent := rfl

theorem recordInto_results (st : LoopState) (alum : AlumniProfile) (t : Nat) :
    (recordInto st alum t).results =
      storeInsert st.results alum.uid (record_result st.records alum t).2 := rfl

theorem recordInto_records (st : LoopState) (alum : AlumniProfile) (t : Nat) :
    (recordInto st alum t).records =
      storeInsert st.records alum.uid (record_result st.records alum t).2 := by
  simp [recordInto, record_result_fst]

theorem budget_recordInto_nonsent (st : LoopState) (alum : AlumniProfile) (t : Nat)
    (h : countStatus "sent" st.results ≤ st.emailsSent)
    (hs : statusString alum.status ≠ "sent") :
    countStatus "sent" (recordInto st alum t).results ≤
      (recordInto st alum t).emailsSent := by
  rw [recordInto_results, recordInto_emailsSent]
  have hle := countStatus_insert_le "sent" st.results alum.uid
    (record_result st.records alum t).2
  rw [statusOf_record_result] at hle
  simp only [Option.some.injEq, Prim.pstr.injEq, hs, if_false] at hle
  omega

theorem budget_recordInto_sent (st : LoopState) (alum : AlumniProfile) (t : Nat)
    (x : Nat) (h : countStatus "sent" st.results ≤ x) :
    countStatus "sent"
      (recordInto { st with emailsSent := x + 1 } alum t).results ≤
      (recordInto { st with emailsSent := x + 1 } alum t).emailsSent := by
  rw [recordInto_results, recordInto_emailsSent]
  have hle := countStatus_insert_le "sent" st.results alum.uid
    (record_result { st with emailsSent := x + 1 }.records alum t).2
  simp only at hle ⊢
  split_ifs at hle <;> omega

theorem processCard_budget_inv (st : LoopState) (c : CardEnv)
    (h : countStatus "sent" st.results ≤ st.emailsSent) :
    countStatus "sent" (processCard st c).1.results ≤
      (processCard st c).1.emailsSent ∧
    (processCard st c).1.emailsSent ≤ st.emailsSent + 1 := by
  rcases hpu : parseUid c.url with _ | uid
  · simp only [processCard, hpu]
    exact ⟨h, by omega⟩
  · by_cases hla : lookup_alum st.records uid
    · simp only [processCard, hpu, hla, if_true]
      refine ⟨budget_recordInto_nonsent st _ c.rtime h (by simp [statusString]), ?_⟩
      rw [recordInto_emailsSent]
      omega
    · cases hqp : c.quickPresent with
      | true =>
        cases hqs : c.quickSend with
        | ok =>
          simp only [processCard, hpu, hla, hqp, hqs, if_false, if_true, Bool.false_eq_true]
          refine ⟨budget_recordInto_sent st _ c.rtime st.emailsSent h, ?_⟩
          rw [recordInto_emailsSent]
        | rtDaily =>
          simp only [processCard, hpu, hla, hqp, hqs, if_false, if_true, Bool.false_eq_true]
          exact ⟨h, by omega⟩
        | rtOther =>
          simp only [processCard, hpu, hla, hqp, hqs, if_false, if_true, Bool.false_eq_true]
          refine ⟨budget_recordInto_nonsent st _ c.rtime h (by simp [statusString]), ?_⟩
          rw [recordInto_emailsSent]
          omega
        | tmo =>
          simp only [processCard, hpu, hla, hqp, hqs, if_false, if_true, Bool.false_eq_true]
          refine ⟨budget_recordInto_nonsent st _ c.rtime h (by simp [statusString]), ?_⟩
          rw [recordInto_emailsSent]
          omega
      | false =>
        cases hpa : c.profileAccessible with
        | false =>
          simp only [processCard, hpu, hla, hqp, hpa, if_false, Bool.false_eq_true,
            Bool.not_false, if_true]
          refine ⟨budget_recordInto_nonsent st _ c.rtime h (by simp [statusString]), ?_⟩
          rw [recordInto_emailsSent]
          omega
        | true =>
          cases hco : c.contactOk with
          | false =>
            simp only [processCard, hpu, hla, hqp, hpa, hco, if_false,
              Bool.false_eq_true, Bool.not_true, Bool.not_false, if_true]
            refine ⟨budget_recordInto_nonsent st _ c.rtime h (by simp [statusString]), ?_⟩
            rw [recordInto_emailsSent]
            omega
          | true =>
            cases hps : c.profileSend with
            | ok =>
              simp only [processCard, hpu, hla, hqp, hpa, hco, hps, if_false,
                Bool.false_eq_true, Bool.not_true, if_true]
              refine ⟨budget_recordInto_sent st _ c.rtime st.emailsSent h, ?_⟩
              rw [recordInto_emailsSent]
            | rtDaily =>
              simp only [processCard, hpu, hla, hqp, hpa, hco, hps, if_false,
                Bool.false_eq_true, Bool.not_true, if_true]
              exact ⟨h, by omega⟩
            | rtOther =>
              simp only [processCard, hpu, hla, hqp, hpa, hco, hps, if_false,
                Bool.false_eq_true, Bool.not_true, if_true]
              refine ⟨budget_recordInto_sent st _ c.rtime st.emailsSent h, ?_⟩
              rw [recordInto_emailsSent]
            | tmo =>
              simp only [processCard, hpu, hla, hqp, hpa, hco, hps, if_false,
                Bool.false_eq_true, Bool.not_true, if_true]
              refine ⟨budget_recordInto_nonsent st _ c.rtime h (by simp [statusString]), ?_⟩
              rw [recordInto_emailsSent]
              omega

theorem processCards_budget_inv (maxEmails : Nat) (cs : List CardEnv) :
    ∀ st : LoopState, countStatus "sent" st.results ≤ st.emailsSent →
    st.emailsSent ≤ maxEmails →
    countStatus "sent" (processCards maxEmails st cs).1.results ≤
      (processCards maxEmails st cs).1.emailsSent ∧
    (processCards maxEmails st cs).1.emailsSent ≤ maxEmails := by
  induction cs with
  | nil =>
    intro st h1 h2
    exact ⟨h1, h2⟩
  | cons c rest ih =>
    intro st h1 h2
    by_cases hg : maxEmails ≤ st.emailsSent
    · simp only [processCards, hg, if_true]
      exact ⟨h1, h2⟩
    · have hstep := processCard_budget_inv st c h1
      rcases hpc : processCard st c with ⟨st', ex⟩
      rw [hpc] at hstep
      dsimp only at hstep
      have h1' : countStatus "sent" st'.results ≤ st'.emailsSent := hstep.1
      have h2' : st'.emailsSent ≤ maxEmails := by omega
      cases ex with
      | nextCard =>
        simp only [processCards, hg, if_false, hpc]
        exact ih st' h1' h2'
      | dailyBreak =>
        simp only [processCards, hg, if_false, hpc]
        exact ⟨h1', h2'⟩
      | fatalErr =>
        simp only [processCards, hg, if_false, hpc]
        exact ⟨h1', h2'⟩

theorem runPages_budget_inv (maxEmails : Nat) (pages : List (List CardEnv)) :
    ∀ st : LoopState, countStatus "sent" st.results ≤ st.emailsSent →
    st.emailsSent ≤ maxEmails →
    countStatus "sent" (runPages maxEmails st pages).final.results ≤
      (runPages maxEmails st pages).final.emailsSent ∧
    (runPages maxEmails st pages).final.emailsSent ≤ maxEmails := by
  induction pages with
  | nil =>
    intro st h1 h2
    exact ⟨h1, h2⟩
  | cons p ps ih =>
    intro st h1 h2
    have hstep := processCards_budget_inv maxEmails p st h1 h2
    rcases hpc : processCards maxEmails st p with ⟨st', alive, fat⟩
    rw [hpc] at hstep
    dsimp only at hstep
    cases alive with
    | false =>
      cases fat with
      | false => simpa only [runPages, hpc] using hstep
      | true => simpa only [runPages, hpc] using hstep
    | true =>
      cases fat with
      | true => simpa only [runPages, hpc] using hstep
      | false =>
        by_cases hg : maxEmails ≤ st'.emailsSent
        · simp only [runPages, hpc, hg, if_true]
          exact hstep
        · simp only [runPages, hpc, hg, if_false]
          exact ih st' hstep.1 hstep.2

/-- C2: in every run the number of candidates recorded "sent" in the
finalized counts never exceeds the configured budget, for any store,
any number of pages and any rows per page; moreover `emails_sent` never
exceeds the budget, and the guard is re-checked before each row — with
the budget already spent, the card loop stops before touching the row. -/
theorem c2_budget_conservation (maxEmails : Nat) (records0 : RecordStore)
    (pages : List (List CardEnv)) :
    (finalizeCounts (runSession maxEmails records0 pages).final.results).sent ≤
      maxEmails ∧
    (runSession maxEmails records0 pages).final.emailsSent ≤ maxEmails ∧
    (∀ (st : LoopState) (c : CardEnv) (cs : List CardEnv),
      maxEmails ≤ st.emailsSent →
      processCards maxEmails st (c :: cs) = (st, false, false)) := by
  have h := runPages_budget_inv maxEmails pages
    { records := records0, results := [], emailsSent := 0 }
    (by simp [countStatus]) (Nat.zero_le _)
  refine ⟨?_, h.2, ?_⟩
  · have hsent : (finalizeCounts
        (runSession maxEmails records0 pages).final.results).sent =
        countStatus "sent" (runSession maxEmails records0 pages).final.results := rfl
    rw [hsent]
    exact h.1.trans h.2
  · intro st c cs hg
    simp [processCards, hg]

/-- Witness for `c2_budget_conservation`: a concrete over-full page and a
concrete re-check of the guard with the budget already spent. -/
theorem c2_budget_conservation_witness :
    (finalizeCounts (runSession 1 []
        [[sampleQuickCard 1 ModalOutcome.ok, sampleQuickCard 2 ModalOutcome.ok,
          sampleQuickCard 3 ModalOutcome.ok]]).final.results).sent ≤ 1 ∧
    (runSession 1 [] [[sampleQuickCard 1 ModalOutcome.ok,
        sampleQuickCard 2 ModalOutcome.ok,
        sampleQuickCard 3 ModalOutcome.ok]]).final.emailsSent ≤ 1 ∧
    processCards 1 { records := [], results := [], emailsSent := 1 }
        [sampleQuickCard 9 ModalOutcome.ok] =
      ({ records := [], results := [], emailsSent := 1 }, false, false) :=
  ⟨(c2_budget_conservation 1 [] [[sampleQuickCard 1 ModalOutcome.ok,
      sampleQuickCard 2 ModalOutcome.ok, sampleQuickCard 3 ModalOutcome.ok]]).1,
   (c2_budget_conservation 1 [] [[sampleQuickCard 1 ModalOutcome.ok,
      sampleQuickCard 2 ModalOutcome.ok, sampleQuickCard 3 ModalOutcome.ok]]).2.1,
   (c2_budget_conservation 1 [] [[sampleQuickCard 1 ModalOutcome.ok,
      sampleQuickCard 2 ModalOutcome.ok, sampleQuickCard 3 ModalOutcome.ok]]).2.2
     { records := [], results := [], emailsSent := 1 }
     (sampleQuickCard 9 ModalOutcome.ok) [] (by decide)⟩

theorem dedup_inv_insert_ne (uid : Nat) (fs0 : List (String × Prim)) (c0 : Prim)
    (recs : RecordStore) (k : Nat) (v : RecVal) (hne : k ≠ uid)
    (hs : dedupStoreInv uid fs0 c0 recs) :
    dedupStoreInv uid fs0 c0 (storeInsert recs k v) := by
  obtain ⟨fs, hlook, hc, hd⟩ := hs
  exact ⟨fs, by rw [storeLookup_insert_ne recs k uid v hne]; exact hlook, hc, hd⟩

theorem dedup_res_insert_ne (uid : Nat) (c0 : Prim) (res : List (Nat × RecVal))
    (k : Nat) (v : RecVal) (hne : k ≠ uid) (hr : dedupResultsInv uid c0 res) :
    dedupResultsInv uid c0 (storeInsert res k v) := by
  intro w hw
  rw [storeLookup_insert_ne res k uid v hne] at hw
  exact hr w hw

theorem dedup_inv_recordInto (uid : Nat) (fs0 : List (String × Prim)) (c0 : Prim)
    (st : LoopState) (alum : AlumniProfile) (t : Nat) (hne : alum.uid ≠ uid)
    (hs : dedupStoreInv uid fs0 c0 st.records)
    (hr : dedupResultsInv uid c0 st.results) :
    dedupStoreInv uid fs0 c0 (recordInto st alum t).records ∧
    dedupResultsInv uid c0 (recordInto st alum t).results := by
  rw [recordInto_records, recordInto_results]
  exact ⟨dedup_inv_insert_ne uid fs0 c0 st.records alum.uid _ hne hs,
    dedup_res_insert_ne uid c0 st.results alum.uid _ hne hr⟩

theorem processCard_dedup_inv (uid : Nat) (fs0 : List (String × Prim)) (c0 : Prim)
    (st : LoopState) (c : CardEnv)
    (hs : dedupStoreInv uid fs0 c0 st.records)
    (hr : dedupResultsInv uid c0 st.results) :
    dedupStoreInv uid fs0 c0 (processCard st c).1.records ∧
    dedupResultsInv uid c0 (processCard st c).1.results := by
  rcases hpu : parseUid c.url with _ | u
  · simp only [processCard, hpu]
    exact ⟨hs, hr⟩
  · by_cases hu : u = uid
    · subst hu
      obtain ⟨fs, hlook, hc, hd⟩ := hs
      have hla : lookup_alum st.records u = true := by
        simp [lookup_alum, hlook]
      simp only [processCard, hpu, hla, if_true]
      have halum : (AlumniProfile.mk c.name c.url u Status.skipped c.ctime c.ctime).uid = u := rfl
      have hrr := record_result_of_robj st.records
        (AlumniProfile.mk c.name c.url u Status.skipped c.ctime c.ctime) c.rtime fs c0
        (by rw [halum]; exact hlook) hc
      constructor
      · rw [recordInto_records, hrr]
        dsimp only
        exact ⟨_, storeLookup_insert_self st.records u _, rfl, Or.inr rfl⟩
      · rw [recordInto_results, hrr]
        dsimp only
        intro w hw
        rw [storeLookup_insert_self st.results u _] at hw
        cases hw
        exact ⟨rfl, rfl⟩
    · have hne : ∀ nm ur (stt : Status) ct ut,
          (AlumniProfile.mk nm ur u stt ct ut).uid ≠ uid := by
        intro nm ur stt ct ut
        simpa using hu
      by_cases hla : lookup_alum st.records u
      · simp only [processCard, hpu, hla, if_true]
        exact dedup_inv_recordInto uid fs0 c0 st _ c.rtime (hne _ _ _ _ _) hs hr
      · cases hqp : c.quickPresent with
        | true =>
          cases hqs : c.quickSend with
          | ok =>
            simp only [processCard, hpu, hla, hqp, hqs, if_false, if_true,
              Bool.false_eq_true]
            exact dedup_inv_recordInto uid fs0 c0 _ _ c.rtime (hne _ _ _ _ _) hs hr
          | rtDaily =>
            simp only [processCard, hpu, hla, hqp, hqs, if_false, if_true,
              Bool.false_eq_true]
            exact ⟨hs, hr⟩
          | rtOther =>
            simp only [processCard, hpu, hla, hqp, hqs, if_false, if_true,
              Bool.false_eq_true]
            exact dedup_inv_recordInto uid fs0 c0 st _ c.rtime (hne _ _ _ _ _) hs hr
          | tmo =>
            simp only [processCard, hpu, hla, hqp, hqs, if_false, if_true,
              Bool.false_eq_true]
            exact dedup_inv_recordInto uid fs0 c0 st _ c.rtime (hne _ _ _ _ _) hs hr
        | false =>
          cases hpa : c.profileAccessible with
          | false =>
            simp only [processCard, hpu, hla, hqp, hpa, if_false,
              Bool.false_eq_true, Bool.not_false, if_true]
            exact dedup_inv_recordInto uid fs0 c0 st _ c.rtime (hne _ _ _ _ _) hs hr
          | true =>
            cases hco : c.contactOk with
            | false =>
              simp only [processCard, hpu, hla, hqp, hpa, hco, if_false,
                Bool.false_eq_true, Bool.not_true, Bool.not_false, if_true]
              exact dedup_inv_recordInto uid fs0 c0 st _ c.rtime (hne _ _ _ _ _) hs hr
            | true =>
              cases hps : c.profileSend with
              | ok =>
                simp only [processCard, hpu, hla, hqp, hpa, hco, hps, if_false,
                  Bool.false_eq_true, Bool.not_true, if_true]
                exact dedup_inv_recordInto uid fs0 c0 _ _ c.rtime (hne _ _ _ _ _) hs hr
              | rtDaily =>
                simp only [processCard, hpu, hla, hqp, hpa, hco, hps, if_false,
                  Bool.false_eq_true, Bool.not_true, if_true]
                exact ⟨hs, hr⟩
              | rtOther =>
                simp only [processCard, hpu, hla, hqp, hpa, hco, hps, if_false,
                  Bool.false_eq_true, Bool.not_true, if_true]
                exact dedup_inv_recordInto uid fs0 c0 _ _ c.rtime (hne _ _ _ _ _) hs hr
              | tmo =>
                simp only [processCard, hpu, hla, hqp, hpa, hco, hps, if_false,
                  Bool.false_eq_true, Bool.not_true, if_true]
                exact dedup_inv_recordInto uid fs0 c0 st _ c.rtime (hne _ _ _ _ _) hs hr

theorem processCards_dedup_inv (uid : Nat) (fs0 : List (String × Prim))
    (c0 : Prim) (maxEmails : Nat) (cs : List CardEnv) :
    ∀ st : LoopState, dedupStoreInv uid fs0 c0 st.records →
    dedupResultsInv uid c0 st.results →
    dedupStoreInv uid fs0 c0 (processCards maxEmails st cs).1.records ∧
    dedupResultsInv uid c0 (processCards maxEmails st cs).1.results := by
  induction cs with
  | nil =>
    intro st hs hr
    exact ⟨hs, hr⟩
  | cons c rest ih =>
    intro st hs hr
    by_cases hg : maxEmails ≤ st.emailsSent
    · simp only [processCards, hg, if_true]
      exact ⟨hs, hr⟩
    · have hstep := processCard_dedup_inv uid fs0 c0 st c hs hr
      rcases hpc : processCard st c with ⟨st', ex⟩
      rw [hpc] at hstep
      dsimp only at hstep
      cases ex with
      | nextCard =>
        simp only [processCards, hg, if_false, hpc]
        exact ih st' hstep.1 hstep.2
      | dailyBreak =>
        simp only [processCards, hg, if_false, hpc]
        exact hstep
      | fatalErr =>
        simp only [processCards, hg, if_false, hpc]
        exact hstep

theorem runPages_dedup_inv (uid : Nat) (fs0 : List (String × Prim)) (c0 : Prim)
    (maxEmails : Nat) (pages : List (List CardEnv)) :
    ∀ st : LoopState, dedupStoreInv uid fs0 c0 st.records →
    dedupResultsInv uid c0 st.results →
    dedupStoreInv uid fs0 c0 (runPages maxEmails st pages).final.records ∧
    dedupResultsInv uid c0 (runPages maxEmails st pages).final.results := by
  induction pages with
  | nil =>
    intro st hs hr
    exact ⟨hs, hr⟩
  | cons p ps ih =>
    intro st hs hr
    have hstep := processCards_dedup_inv uid fs0 c0 maxEmails p st hs hr
    rcases hpc : processCards maxEmails st p with ⟨st', alive, fat⟩
    rw [hpc] at hstep
    dsimp only at hstep
    cases alive with
    | false =>
      cases fat with
      | false => simpa only [runPages, hpc] using hstep
      | true => simpa only [runPages, hpc] using hstep
    | true =>
      cases fat with
      | true => simpa only [runPages, hpc] using hstep
      | false =>
        by_cases hg : maxEmails ≤ st'.emailsSent
        · simp only [runPages, hpc, hg, if_true]
          exact hstep
        · simp only [runPages, hpc, hg, if_false]
          exact ih st' hstep.1 hstep.2

/-- C1: for every identity already in the store at session start (with a
`created_at` field, as every flushed record has), the run leaves its
store entry either untouched or rewritten as a "skipped" record that
keeps the original `created_at` — never "sent"; any run-results entry
for it is a "skipped" record with the original `created_at`; and a card
that hits the dedup check leaves `emails_sent` unchanged, so the budget
is never decremented for it. -/
theorem c1_dedup_idempotent (maxEmails : Nat) (records0 : RecordStore)
    (pages : List (List CardEnv)) (uid : Nat) (fs0 : List (String × Prim))
    (c0 : Prim) (h0 : storeLookup records0 uid = some (RecVal.robj fs0))
    (hc0 : flookup fs0 "created_at" = some c0) :
    dedupStoreInv uid fs0 c0 (runSession maxEmails records0 pages).final.records ∧
    dedupResultsInv uid c0 (runSession maxEmails records0 pages).final.results ∧
    (∀ (st : LoopState) (c : CardEnv) (u : Nat), parseUid c.url = some u →
      lookup_alum st.records u = true →
      (processCard st c).1.emailsSent = st.emailsSent ∧
      (processCard st c).2 = CardExit.nextCard) := by
  have hinv := runPages_dedup_inv uid fs0 c0 maxEmails pages
    { records := records0, results := [], emailsSent := 0 }
    ⟨fs0, h0, hc0, Or.inl rfl⟩ (by intro v hv; cases hv)
  refine ⟨hinv.1, hinv.2, ?_⟩
  intro st c u hpu hla
  simp only [processCard, hpu, hla, if_true]
  exact ⟨recordInto_emailsSent st _ c.rtime, trivial⟩

/-- Witness for `c1_dedup_idempotent`: uid 7 is already in the store
with status "sent" and `created_at` 11, and the single page shows the
same candidate again. -/
theorem c1_dedup_idempotent_witness :
    dedupStoreInv 7
      [ ("uid", Prim.pnum 7),
        ("name", Prim.pstr "Jane Q Doe"),
        ("url", Prim.pstr "https://alumni.example.edu/person/7"),
        ("status", Prim.pstr "sent"),
        ("created_at", Prim.pnum 11),
        ("updated_at", Prim.pnum 11) ] (Prim.pnum 11)
      (runSession 5 sampleStore
        [[sampleQuickCard 7 ModalOutcome.ok]]).final.records ∧
    dedupResultsInv 7 (Prim.pnum 11)
      (runSession 5 sampleStore
        [[sampleQuickCard 7 ModalOutcome.ok]]).final.results ∧
    (processCard { records := sampleStore, results := [], emailsSent := 0 }
        (sampleQuickCard 7 ModalOutcome.ok)).1.emailsSent = 0 :=
  have h := c1_dedup_idempotent 5 sampleStore
    [[sampleQuickCard 7 ModalOutcome.ok]] 7
    [ ("uid", Prim.pnum 7),
      ("name", Prim.pstr "Jane Q Doe"),
      ("url", Prim.pstr "https://alumni.example.edu/person/7"),
      ("status", Prim.pstr "sent"),
      ("created_at", Prim.pnum 11),
      ("updated_at", Prim.pnum 11) ] (Prim.pnum 11) (by decide) (by decide)
  ⟨h.1, h.2.1,
    (h.2.2 { records := sampleStore, results := [], emailsSent := 0 }
      (sampleQuickCard 7 ModalOutcome.ok) 7 (by decide) (by decide)).1⟩

/-- C5: a delivery attempt that raises the daily-limit `RuntimeError` —
on either channel — is not retried, sets `keep_alive` to False so the
candidate receives no outcome record at all and is never marked "sent",
and ends the session immediately: the loop state returned for
finalization and flushing is exactly the state accumulated before the
signal, and the run-level exception handler does not fire. -/
theorem c5_daily_limit_terminates (maxEmails : Nat) (st : LoopState)
    (c : CardEnv) (u : Nat) (rest : List CardEnv)
    (more : List (List CardEnv)) (hbudget : st.emailsSent < maxEmails)
    (hpu : parseUid c.url = some u)
    (hfresh : lookup_alum st.records u = false)
    (hdaily : (c.quickPresent = true ∧ c.quickSend = ModalOutcome.rtDaily) ∨
      (c.quickPresent = false ∧ c.profileAccessible = true ∧
        c.contactOk = true ∧ c.profileSend = ModalOutcome.rtDaily)) :
    processCard st c = (st, CardExit.dailyBreak) ∧
    runPages maxEmails st ((c :: rest) :: more) =
      { final := st, aborted := false } := by
  have h1 : processCard st c = (st, CardExit.dailyBreak) := by
    rcases hdaily with ⟨hqp, hqs⟩ | ⟨hqp, hpa, hco, hps⟩
    · simp [processCard, hpu, hfresh, hqp, hqs]
    · simp [processCard, hpu, hfresh, hqp, hpa, hco, hps]
  have h2 : ¬ maxEmails ≤ st.emailsSent := by omega
  exact ⟨h1, by simp [runPages, processCards, h2, h1]⟩

/-- Witness for `c5_daily_limit_terminates`: a prior outcome is already
in the state; the quick-path daily-limit signal ends the session with
that state intact, the signalled candidate unrecorded. -/
theorem c5_daily_limit_terminates_witness :
    processCard { records := sampleStore, results := sampleStore, emailsSent := 0 }
        (sampleQuickCard 1 ModalOutcome.rtDaily) =
      ({ records := sampleStore, results := sampleStore, emailsSent := 0 },
        CardExit.dailyBreak) ∧
    runPages 5 { records := sampleStore, results := sampleStore, emailsSent := 0 }
        [[sampleQuickCard 1 ModalOutcome.rtDaily, sampleQuickCard 2 ModalOutcome.ok]] =
      { final := { records := sampleStore, results := sampleStore, emailsSent := 0 },
        aborted := false } :=
  c5_daily_limit_terminates 5
    { records := sampleStore, results := sampleStore, emailsSent := 0 }
    (sampleQuickCard 1 ModalOutcome.rtDaily) 1
    [sampleQuickCard 2 ModalOutcome.ok] [] (by decide) (by decide) (by decide)
    (Or.inl ⟨rfl, rfl⟩)

/-- C6 (counterexample): a candidate whose quick channel is available
and whose quick delivery attempt fails with a transient UI fault is not
retried on the profile channel — even though that channel would deliver
— but is recorded "viewed" and the run is aborted by the propagating
fault. -/
theorem c6_counterexample :
    (runSession 5 [] [[sampleQuickCard 1 ModalOutcome.tmo]]).aborted = true ∧
    storeLookup (runSession 5 []
        [[sampleQuickCard 1 ModalOutcome.tmo]]).final.results 1 =
      some (stdRec 1 "Jane Q Doe" "https://alumni.example.edu/person/1"
        Status.viewed (Prim.pnum 101) 201) ∧
    (runSession 5 [] [[sampleQuickCard 1 ModalOutcome.tmo]]).final.emailsSent
      = 0 := by
  decide

/-- C6 (amended): the fallback to the profile channel happens only when
the quick channel is unavailable (no quicksend control on the card, the
`NoSuchElementException` path); when the quick channel is available and
its delivery attempt fails with a transient UI fault, no channel is
retried — the candidate is recorded "viewed" and the fault escapes to
the run-level handler. -/
theorem c6_fallback_only_when_quick_absent :
    (∀ (st : LoopState) (c : CardEnv) (u : Nat), parseUid c.url = some u →
      lookup_alum st.records u = false → c.quickPresent = false →
      c.profileAccessible = true → c.contactOk = true →
      c.profileSend = ModalOutcome.ok →
      processCard st c =
        (recordInto { st with emailsSent := st.emailsSent + 1 }
          (AlumniProfile.mk c.name c.url u Status.sent c.ctime c.ctime) c.rtime,
         CardExit.nextCard)) ∧
    (∀ (st : LoopState) (c : CardEnv) (u : Nat), parseUid c.url = some u →
      lookup_alum st.records u = false → c.quickPresent = true →
      c.quickSend = ModalOutcome.tmo →
      processCard st c =
        (recordInto st
          (AlumniProfile.mk c.name c.url u Status.viewed c.ctime c.ctime) c.rtime,
         CardExit.fatalErr)) := by
  constructor
  · intro st c u hpu hfresh hqp hpa hco hps
    simp [processCard, hpu, hfresh, hqp, hpa, hco, hps]
  · intro st c u hpu hfresh hqp hqs
    simp [processCard, hpu, hfresh, hqp, hqs]

/-- Witness for `c6_fallback_only_when_quick_absent` at concrete cards. -/
theorem c6_fallback_only_when_quick_absent_witness :
    processCard { records := [], results := [], emailsSent := 0 }
        (sampleProfileCard 4 true true ModalOutcome.ok) =
      (recordInto { records := [], results := [], emailsSent := 1 }
        (AlumniProfile.mk "John R Roe" "https://alumni.example.edu/person/4" 4
          Status.sent 104 104) 204,
       CardExit.nextCard) ∧
    processCard { records := [], results := [], emailsSent := 0 }
        (sampleQuickCard 5 ModalOutcome.tmo) =
      (recordInto { records := [], results := [], emailsSent := 0 }
        (AlumniProfile.mk "Jane Q Doe" "https://alumni.example.edu/person/5" 5
          Status.viewed 105 105) 205,
       CardExit.fatalErr) :=
  ⟨c6_fallback_only_when_quick_absent.1
      { records := [], results := [], emailsSent := 0 }
      (sampleProfileCard 4 true true ModalOutcome.ok) 4
      (by decide) (by decide) rfl rfl rfl rfl,
   c6_fallback_only_when_quick_absent.2
      { records := [], results := [], emailsSent := 0 }
      (sampleQuickCard 5 ModalOutcome.tmo) 5
      (by decide) (by decide) rfl rfl⟩

/-- C7: `created_at` is stamped at first observation and preserved by a
later upsert of the same identity even across a flush/load round trip,
while `updated_at` is refreshed to each upsert's clock reading — so it
strictly increases whenever the clock does. -/
theorem c7_created_at_immutable (store : RecordStore) (a1 a2 : AlumniProfile)
    (t1 t2 : Nat) (hfresh : storeLookup store a1.uid = none)
    (huid : a2.uid = a1.uid) (ht : t1 < t2) :
    createdOf (record_result store a1 t1).2 = some (Prim.pnum a1.created_at) ∧
    createdOf (record_result (load_records (write_json_atomic
        (record_result store a1 t1).1)) a2 t2).2 =
      some (Prim.pnum a1.created_at) ∧
    updatedOf (record_result store a1 t1).2 = some (Prim.pnum t1) ∧
    updatedOf (record_result (load_records (write_json_atomic
        (record_result store a1 t1).1)) a2 t2).2 = some (Prim.pnum t2) ∧
    t1 < t2 := by
  have h1 := record_result_of_none store a1 t1 hfresh
  have hload : load_records (write_json_atomic (record_result store a1 t1).1) =
      (record_result store a1 t1).1 := load_after_flush _
  have h2 : storeLookup (load_records (write_json_atomic
      (record_result store a1 t1).1)) a2.uid =
      some (RecVal.robj
        [ ("uid", Prim.pnum a1.uid),
          ("name", Prim.pstr a1.name),
          ("url", Prim.pstr a1.url),
          ("status", Prim.pstr (statusString a1.status)),
          ("created_at", Prim.pnum a1.created_at),
          ("updated_at", Prim.pnum t1) ]) := by
    rw [hload, huid, h1]
    exact storeLookup_insert_self store a1.uid _
  have h3 := record_result_of_robj _ a2 t2 _ (Prim.pnum a1.created_at) h2 rfl
  refine ⟨?_, ?_, ?_, ?_, ht⟩
  · rw [h1]
    rfl
  · rw [h3]
    rfl
  · rw [h1]
    rfl
  · rw [h3]
    rfl

/-- Witness for `c7_created_at_immutable` at a concrete double upsert. -/
theorem c7_created_at_immutable_witness :
    createdOf (record_result []
        (AlumniProfile.mk "A" "u" 3 Status.viewed 50 50) 51).2 =
      some (Prim.pnum 50) ∧
    createdOf (record_result (load_records (write_json_atomic
        (record_result [] (AlumniProfile.mk "A" "u" 3 Status.viewed 50 50) 51).1))
        (AlumniProfile.mk "B" "v" 3 Status.sent 60 60) 61).2 =
      some (Prim.pnum 50) ∧
    updatedOf (record_result []
        (AlumniProfile.mk "A" "u" 3 Status.viewed 50 50) 51).2 =
      some (Prim.pnum 51) ∧
    updatedOf (record_result (load_records (write_json_atomic
        (record_result [] (AlumniProfile.mk "A" "u" 3 Status.viewed 50 50) 51).1))
        (AlumniProfile.mk "B" "v" 3 Status.sent 60 60) 61).2 =
      some (Prim.pnum 61) ∧
    (51 : Nat) < 61 :=
  c7_created_at_immutable [] (AlumniProfile.mk "A" "u" 3 Status.viewed 50 50)
    (AlumniProfile.mk "B" "v" 3 Status.sent 60 60) 51 61
    (by decide) (by decide) (by decide)

/-- C10 (counterexample): when the delivery dialog cannot be closed
after a profile-channel send, the session does not terminate — the
fault is swallowed per-candidate, the candidate is recorded "viewed",
and the next candidate is still processed and sent. -/
theorem c10_counterexample :
    (runSession 5 [] [[sampleProfileCard 1 true true ModalOutcome.tmo,
        sampleQuickCard 2 ModalOutcome.ok]]).aborted = false ∧
    storeLookup (runSession 5 [] [[sampleProfileCard 1 true true ModalOutcome.tmo,
        sampleQuickCard 2 ModalOutcome.ok]]).final.results 1 =
      some (stdRec 1 "John R Roe" "https://alumni.example.edu/person/1"
        Status.viewed (Prim.pnum 101) 201) ∧
    storeLookup (runSession 5 [] [[sampleProfileCard 1 true true ModalOutcome.tmo,
        sampleQuickCard 2 ModalOutcome.ok]]).final.results 2 =
      some (stdRec 2 "Jane Q Doe" "https://alumni.example.edu/person/2"
        Status.sent (Prim.pnum 102) 202) ∧
    (runSession 5 [] [[sampleProfileCard 1 true true ModalOutcome.tmo,
        sampleQuickCard 2 ModalOutcome.ok]]).final.emailsSent = 1 := by
  decide

/-- C10 (amended): a failure to close the delivery dialog surfaces as a
timeout fault.  On the quick path it escapes to the run-level handler:
iteration stops with the candidate recorded "viewed" — never "sent" —
and the accumulated state goes to finalization and flushing (but the
handler swallows the exception, so the process does not exit nonzero).
On the profile path the same fault is caught by the per-candidate
handler: the candidate is recorded "viewed" and the session continues. -/
theorem c10_modal_close_fault :
    (∀ (maxEmails : Nat) (st : LoopState) (c : CardEnv) (u : Nat)
      (rest : List CardEnv) (more : List (List CardEnv)),
      st.emailsSent < maxEmails → parseUid c.url = some u →
      lookup_alum st.records u = false → c.quickPresent = true →
      c.quickSend = ModalOutcome.tmo →
      runPages maxEmails st ((c :: rest) :: more) =
        { final := recordInto st
            (AlumniProfile.mk c.name c.url u Status.viewed c.ctime c.ctime)
            c.rtime,
          aborted := true }) ∧
    (∀ (st : LoopState) (c : CardEnv) (u : Nat), parseUid c.url = some u →
      lookup_alum st.records u = false → c.quickPresent = false →
      c.profileAccessible = true → c.contactOk = true →
      c.profileSend = ModalOutcome.tmo →
      processCard st c =
        (recordInto st
          (AlumniProfile.mk c.name c.url u Status.viewed c.ctime c.ctime) c.rtime,
         CardExit.nextCard)) := by
  constructor
  · intro maxEmails st c u rest more hbudget hpu hfresh hqp hqs
    have h1 : processCard st c =
        (recordInto st
          (AlumniProfile.mk c.name c.url u Status.viewed c.ctime c.ctime) c.rtime,
         CardExit.fatalErr) := by
      simp [processCard, hpu, hfresh, hqp, hqs]
    have h2 : ¬ maxEmails ≤ st.emailsSent := by omega
    simp [runPages, processCards, h2, h1]
  · intro st c u hpu hfresh hqp hpa hco hps
    simp [processCard, hpu, hfresh, hqp, hpa, hco, hps]

/-- Witness for `c10_modal_close_fault` at concrete cards. -/
theorem c10_modal_close_fault_witness :
    runPages 3 { records := [], results := [], emailsSent := 0 }
        [[sampleQuickCard 8 ModalOutcome.tmo, sampleQuickCard 9 ModalOutcome.ok]] =
      { final := recordInto { records := [], results := [], emailsSent := 0 }
          (AlumniProfile.mk "Jane Q Doe" "https://alumni.example.edu/person/8" 8
            Status.viewed 108 108) 208,
        aborted := true } ∧
    processCard { records := [], results := [], emailsSent := 0 }
        (sampleProfileCard 6 true true ModalOutcome.tmo) =
      (recordInto { records := [], results := [], emailsSent := 0 }
        (AlumniProfile.mk "John R Roe" "https://alumni.example.edu/person/6" 6
          Status.viewed 106 106) 206,
       CardExit.nextCard) :=
  ⟨c10_modal_close_fault.1 3 { records := [], results := [], emailsSent := 0 }
      (sampleQuickCard 8 ModalOutcome.tmo) 8 [sampleQuickCard 9 ModalOutcome.ok] []
      (by decide) (by decide) (by decide) rfl rfl,
   c10_modal_close_fault.2 { records := [], results := [], emailsSent := 0 }
      (sampleProfileCard 6 true true ModalOutcome.tmo) 6
      (by decide) (by decide) rfl rfl rfl rfl⟩
